import Mathlib

/-!
Verification of the `milvus_explorer.py` command-line inspector.

The tool is a single linear `main` function: parse arguments, check the
database file exists, open a client handle, then dispatch to one of three
modes (vector search / list collections / inspect one collection), printing
a report.  We embed it shallowly: Python values appearing in records are a
`Value` inductive, the external Milvus client (plus the two library
functions `json.loads` and numeric formatting) is an oracle `World`, and
`main` produces the ordered trace of observable events — printed lines and
client calls with their exact arguments.

Modelling notes (places where the embedding abstracts library behaviour):
* numeric formatting (`:.4f` of a score or norm, `repr` of a list/dict) is
  an uninterpreted string-valued field of `World`;
* a `text` field that is not a string would make the Python truncation code
  apply `len`/slicing to a non-string; records produced by Milvus always
  carry strings there, and the embedding renders non-string values through
  the formatting oracle without truncation;
* `np.ndarray` embeddings are identified with list embeddings (`vlist`).
-/

namespace MilvusExplorer

/-- A Python value as it appears in records returned by the client. -/
inductive Value where
  | vnull : Value
  | vbool : Bool → Value
  | vint : Int → Value
  | vstr : String → Value
  | vlist : List Value → Value
  | vdict : List (String × Value) → Value

mutual

/-- Python `==` on values. -/
def Value.beq : Value → Value → Bool
  | Value.vnull, Value.vnull => true
  | Value.vbool x, Value.vbool y => x == y
  | Value.vint x, Value.vint y => x == y
  | Value.vstr x, Value.vstr y => x == y
  | Value.vlist xs, Value.vlist ys => Value.beqL xs ys
  | Value.vdict xs, Value.vdict ys => Value.beqD xs ys
  | _, _ => false

/-- Python `==` on lists of values. -/
def Value.beqL : List Value → List Value → Bool
  | [], [] => true
  | x :: xs, y :: ys => Value.beq x y && Value.beqL xs ys
  | _, _ => false

/-- Python `==` on dicts (order-sensitive association lists). -/
def Value.beqD : List (String × Value) → List (String × Value) → Bool
  | [], [] => true
  | (k₁, x) :: xs, (k₂, y) :: ys => k₁ == k₂ && Value.beq x y && Value.beqD xs ys
  | _, _ => false

end

/-- Python `v in l` membership test on a list of values. -/
def vMem (v : Value) (l : List Value) : Bool :=
  l.any (Value.beq v)

/-- A Python dict with string keys, as an association list (keys unique). -/
abbrev Dict := List (String × Value)

/-- `d.get(k)` / `d[k]` lookup: first binding of the key, if any. -/
def dictGet (d : Dict) (k : String) : Option Value :=
  match d with
  | [] => none
  | (k₂, v) :: rest => if k₂ = k then some v else dictGet rest k

/-- `k in d` membership test on a Python dict. -/
def dictMem (d : Dict) (k : String) : Bool :=
  (dictGet d k).isSome

/-- `d.get(k, dflt)` lookup with default. -/
def dictGetD (d : Dict) (k : String) (dflt : Value) : Value :=
  (dictGet d k).getD dflt

/-- The list underlying a Python list value (iteration). -/
def asList : Value → List Value
  | Value.vlist xs => xs
  | _ => []

/-- The dict underlying a Python dict value (`.items()` iteration). -/
def asDict : Value → Dict
  | Value.vdict d => d
  | _ => []

/-- `v.get(k)` on a value expected to be a dict; `None` when absent. -/
def vGet (v : Value) (k : String) : Value :=
  dictGetD (asDict v) k Value.vnull

/-- Python truthiness of a value. -/
def pyTruthy : Value → Bool
  | Value.vnull => false
  | Value.vbool b => b
  | Value.vint n => n != 0
  | Value.vstr s => !s.isEmpty
  | Value.vlist xs => !xs.isEmpty
  | Value.vdict d => !d.isEmpty

/-- Truthiness of an optional-string argument (`None` and `""` are falsy). -/
def pyTruthyStr : Option String → Bool
  | none => false
  | some s => !s.isEmpty

/-- The string of an optional-string argument known to be truthy. -/
def getS (o : Option String) : String :=
  o.getD ""

/-- Python slice `l[:n]`, including the negative-bound convention. -/
def pyTake (l : List Value) (n : Int) : List Value :=
  if 0 ≤ n then l.take n.toNat else l.take (l.length - (-n).toNat)

/-- The parsed command-line options (defaults as declared by argparse). -/
structure Args where
  uri : String
  token : String
  db : String
  collection : Option String
  limit : Int
  offset : Int
  show_vectors : Bool
  vector_preview : Int
  search : Bool
  search_text : Option String
  search_vector : Option String
  search_id : Option Int
  top_k : Int
deriving DecidableEq

/-- The external collaborators: the Milvus client (each capability may
fail with an error message), `json.loads`, and the string-formatting
library calls the tool delegates to. -/
structure World where
  pathExists : String → Bool
  connect : String → String → String → Except String Unit
  hasCollection : String → Except String Bool
  listCollections : Except String (List String)
  describe : String → Except String Dict
  hasStatsAttr : Bool
  stats : String → Except String Dict
  query : String → String → List Value → Int → Option Int → Except String (List Dict)
  search : String → List Value → String → String → Int → List Value → Except String (List (List Dict))
  jsonLoads : String → Except Unit Value
  reprV : Value → String
  scoreStr : Value → String
  normStr : Value → String
  errName : String → String

/-- Python `f"...{v}..."` interpolation of a record value. -/
def pyStr (w : World) : Value → String
  | Value.vstr s => s
  | Value.vint n => toString n
  | Value.vbool b => if b then "True" else "False"
  | Value.vnull => "None"
  | v => w.reprV v

/-- One observable step of an invocation: a printed line, the printed
table, a traceback dump, or a client call with its exact arguments. -/
inductive Event where
  | print : String → Event
  | printTable : List String → List (List Value) → Event
  | traceback : Event
  | connect : String → String → String → Event
  | hasCollection : String → Event
  | listCollections : Event
  | describeCollection : String → Event
  | getCollectionStats : String → Event
  | queryCall : String → String → List Value → Int → Option Int → Event
  | searchCall : String → List Value → String → String → Int → List Value → Event

/-- Recognises the client-side similarity-search call in a trace. -/
def isSearchCall : Event → Bool
  | Event.searchCall _ _ _ _ _ _ => true
  | _ => false

/-- Recognises a client-side read-query call in a trace. -/
def isQueryCall : Event → Bool
  | Event.queryCall _ _ _ _ _ => true
  | _ => false

/-- Recognises any call into the database client. -/
def isClientCall : Event → Bool
  | Event.print _ => false
  | Event.printTable _ _ => false
  | Event.traceback => false
  | _ => true

/-- The display truncation applied to a record text: texts longer than 100
characters are cut to their first 97 characters plus `"..."`. -/
def truncText (s : String) : String :=
  if s.length > 100 then s.take 97 ++ "..." else s

/-- Rendering of the `text` field value: strings are truncated, other
values fall back to the formatting oracle (see modelling notes). -/
def truncRender (w : World) : Value → String
  | Value.vstr s => truncText s
  | v => pyStr w v

/-- The `元数据:` key-value lines printed for a metadata mapping. -/
def metaLines (w : World) (v : Value) : List Event :=
  (asDict v).map (fun kv => Event.print ("  " ++ kv.1 ++ ": " ++ pyStr w kv.2))

/-- Rendering of one search hit (`--- 相似结果 #i+1 ... ---` block). -/
def renderHit (w : World) (i : Nat) (hit : Dict) : List Event :=
  Event.print ("\n--- 相似结果 #" ++ toString (i + 1) ++ " (相似度得分: "
      ++ w.scoreStr (dictGetD hit ("score") Value.vnull) ++ ") ---") ::
  ((match dictGet hit ("text") with
    | some v => [Event.print ("文本: " ++ truncRender w v)]
    | none => []) ++
   (match dictGet hit ("reference") with
    | some v => [Event.print ("参考: " ++ pyStr w v)]
    | none => []) ++
   (match dictGet hit ("metadata") with
    | some v => if pyTruthy v then Event.print ("元数据:") :: metaLines w v else []
    | none => []) ++
   (match dictGet hit ("id") with
    | some v => [Event.print ("ID: " ++ pyStr w v)]
    | none => []))

/-- The `enumerate` loop over the hits of the first search result set. -/
def renderHits (w : World) : Nat → List Dict → List Event
  | _, [] => []
  | i, hit :: rest => renderHit w i hit ++ renderHits w (i + 1) rest

/-- The similarity-search call and the report printed from its result. -/
def doSearch (a : Args) (w : World) (coll : String) (vec : Value) : List Event :=
  Event.searchCall coll [vec] ("embedding") ("L2") a.top_k
      [Value.vstr ("text"), Value.vstr ("reference"), Value.vstr ("metadata")] ::
  match w.search coll [vec] ("embedding") ("L2") a.top_k
      [Value.vstr ("text"), Value.vstr ("reference"), Value.vstr ("metadata")] with
  | Except.error e => [Event.print ("执行向量搜索失败: " ++ e), Event.traceback]
  | Except.ok results =>
    match results with
    | [] => [Event.print ("未找到相似结果")]
    | first :: _ =>
      if first.isEmpty then [Event.print ("未找到相似结果")]
      else
        Event.print ("\n找到 " ++ toString first.length ++ " 个相似结果:") ::
        renderHits w 0 first

/-- Resolution of the query vector (id wins over explicit vector, which
wins over text) followed by the search itself. -/
def resolveAndSearch (a : Args) (w : World) (coll : String) : List Event :=
  match a.search_id with
  | some sid =>
    Event.queryCall coll ("id == " ++ toString sid) [Value.vstr ("embedding")] 1 none ::
    (match w.query coll ("id == " ++ toString sid) [Value.vstr ("embedding")] 1 none with
     | Except.error e =>
       [Event.print ("获取ID " ++ toString sid ++ " 的向量时出错: " ++ e)]
     | Except.ok result =>
       match result with
       | [] => [Event.print ("错误: 未找到ID为 " ++ toString sid ++ " 的数据或其没有向量")]
       | r :: _ =>
         match dictGet r ("embedding") with
         | none => [Event.print ("错误: 未找到ID为 " ++ toString sid ++ " 的数据或其没有向量")]
         | some v =>
           Event.print ("使用ID " ++ toString sid ++ " 的向量进行搜索") ::
           doSearch a w coll v)
  | none =>
    if pyTruthyStr a.search_vector then
      match w.jsonLoads (getS a.search_vector) with
      | Except.error _ => [Event.print ("错误: 搜索向量必须是有效的JSON数组")]
      | Except.ok v =>
        match v with
        | Value.vlist xs =>
          Event.print ("使用提供的向量进行搜索 (维度: " ++ toString xs.length ++ ")") ::
          doSearch a w coll (Value.vlist xs)
        | _ => [Event.print ("错误: 搜索向量必须是JSON数组格式")]
    else if pyTruthyStr a.search_text then
      [Event.print ("错误: 文本搜索需要嵌入模型，此功能尚未实现"),
       Event.print ("提示: 请使用 --search_vector 或 --search_id 参数进行搜索")]
    else
      [Event.print ("错误: 必须提供搜索向量 (--search_vector) 或 搜索ID (--search_id) 或 搜索文本 (--search_text)")]

/-- The search mode: requires a collection name, checks existence, then
resolves the query vector and searches. -/
def searchMode (a : Args) (w : World) : List Event :=
  if pyTruthyStr a.collection then
    Event.hasCollection (getS a.collection) ::
    match w.hasCollection (getS a.collection) with
    | Except.error e => [Event.print ("执行搜索操作失败: " ++ e)]
    | Except.ok false =>
      [Event.print ("错误: 集合 \x27" ++ getS a.collection ++ "\x27 不存在")]
    | Except.ok true => resolveAndSearch a w (getS a.collection)
  else
    [Event.print ("错误: 执行搜索时必须指定集合名称 (--collection)")]

/-- The best-effort row count shown in the collection listing: `未知`
unless the stats call is available, succeeds, and reports `row_count`. -/
def countOf (w : World) (c : String) : Value :=
  if w.hasStatsAttr then
    match w.stats c with
    | Except.error _ => Value.vstr ("未知")
    | Except.ok stats =>
      if pyTruthy (Value.vdict stats) && dictMem stats ("row_count") then
        dictGetD stats ("row_count") Value.vnull
      else Value.vstr ("未知")
  else Value.vstr ("未知")

/-- The table row built for one collection during listing; a describe
failure degrades to an error-text description and an unknown count. -/
def collectionRow (w : World) (c : String) : List Value :=
  match w.describe c with
  | Except.ok d => [Value.vstr c, dictGetD d ("description") (Value.vstr ("")), countOf w c]
  | Except.error e => [Value.vstr c, Value.vstr ("获取信息失败: " ++ e), Value.vstr ("未知")]

/-- All table rows of the listing, one per collection, in order. -/
def listRows (w : World) (cs : List String) : List (List Value) :=
  cs.map (collectionRow w)

/-- The client calls issued while building one collection's row. -/
def listEntryEvents (w : World) (c : String) : List Event :=
  Event.describeCollection c ::
  match w.describe c with
  | Except.ok _ => if w.hasStatsAttr then [Event.getCollectionStats c] else []
  | Except.error _ => []

/-- The client calls issued by the listing loop. -/
def listEvents (w : World) (cs : List String) : List Event :=
  (cs.map (listEntryEvents w)).flatten

/-- The list-collections mode: all collections as a table, or an explicit
empty message. -/
def listMode (w : World) : List Event :=
  Event.listCollections ::
  match w.listCollections with
  | Except.error e => [Event.print ("获取集合列表失败: " ++ e)]
  | Except.ok [] => [Event.print ("当前数据库中没有集合")]
  | Except.ok cs =>
    Event.print ("\n集合列表:") ::
    listEvents w cs ++
    [Event.printTable [("集合名称"), ("描述"), ("数据量")] (listRows w cs)]

/-- Rendering of one record in the paged read (`--- 数据 #n ---` block). -/
def renderItem (a : Args) (w : World) (fieldNames : List Value) (i : Nat)
    (item : Dict) : List Event :=
  Event.print ("\n--- 数据 #" ++ toString (a.offset + (i : Int) + 1) ++ " ---") ::
  ((match dictGet item ("id") with
    | some v => [Event.print ("ID: " ++ pyStr w v)]
    | none => []) ++
   (match dictGet item ("text") with
    | some v => [Event.print ("文本: " ++ truncRender w v)]
    | none => []) ++
   (match dictGet item ("reference") with
    | some v => [Event.print ("参考: " ++ pyStr w v)]
    | none => []) ++
   (match dictGet item ("metadata") with
    | some v => if pyTruthy v then Event.print ("元数据:") :: metaLines w v else []
    | none => []) ++
   (match dictGet item ("embedding") with
    | some v =>
      if a.show_vectors then
        match v with
        | Value.vlist xs =>
          [Event.print ("向量数据 (维度: " ++ toString xs.length ++ "):"),
           Event.print ("  前" ++ toString a.vector_preview ++ "个元素: "
               ++ w.reprV (Value.vlist (pyTake xs a.vector_preview))),
           Event.print ("  范数: " ++ w.normStr v)]
        | _ => [Event.print ("向量数据: " ++ pyStr w v)]
      else []
    | none => []) ++
   ((fieldNames.filter (fun f =>
       !vMem f [Value.vstr ("text"), Value.vstr ("reference"),
                Value.vstr ("metadata"), Value.vstr ("embedding"),
                Value.vstr ("id")] &&
       (match f with
        | Value.vstr s => dictMem item s
        | _ => false))).map (fun f =>
     Event.print (pyStr w f ++ ": "
         ++ pyStr w (match f with
                     | Value.vstr s => dictGetD item s Value.vnull
                     | _ => Value.vnull)))))

/-- The `enumerate` loop over the fetched page of records. -/
def renderItems (a : Args) (w : World) (fieldNames : List Value) :
    Nat → List Dict → List Event
  | _, [] => []
  | i, item :: rest =>
    renderItem a w fieldNames i item ++ renderItems a w fieldNames (i + 1) rest

/-- The summary line plus the per-record blocks of a non-empty page. -/
def pagedReport (a : Args) (w : World) (fieldNames : List Value)
    (results : List Dict) : List Event :=
  Event.print ("\n数据 (显示 " ++ toString (a.offset + 1) ++ " - "
      ++ toString (a.offset + (results.length : Int)) ++ " 条):") ::
  renderItems a w fieldNames 0 results

/-- Output-field computation and the paged read of one collection. -/
def inspectQuery (a : Args) (w : World) (coll : String)
    (description : Dict) : List Event :=
  let fields := asList (dictGetD description ("fields") (Value.vlist []))
  let fieldNames :=
    if a.show_vectors then
      (fields.filter (fun f => !Value.beq (vGet f ("name")) (Value.vstr ("id")))).map
        (fun f => vGet f ("name"))
    else
      (fields.filter (fun f =>
        !vMem (vGet f ("name")) [Value.vstr ("id"), Value.vstr ("embedding")])).map
        (fun f => vGet f ("name"))
  let output_fields0 :=
    if a.show_vectors then fieldNames
    else
      [Value.vstr ("text"), Value.vstr ("reference"), Value.vstr ("metadata")].filter
        (fun f => vMem f fieldNames)
  let output_fields :=
    if vMem (Value.vstr ("id")) output_fields0 then output_fields0
    else output_fields0 ++ [Value.vstr ("id")]
  if output_fields.isEmpty then [Event.print ("警告: 集合中没有可显示的字段")]
  else
    Event.queryCall coll ("") output_fields a.limit (some a.offset) ::
    match w.query coll ("") output_fields a.limit (some a.offset) with
    | Except.error e =>
      [Event.print ("查询数据失败: " ++ e),
       Event.print ("错误详情: " ++ w.errName e), Event.traceback]
    | Except.ok [] => [Event.print ("集合 \x27" ++ coll ++ "\x27 中没有数据")]
    | Except.ok results => pagedReport a w fieldNames results

/-- The inspect mode for a named collection: existence check, schema
fetch, then the paged read. -/
def showMode (a : Args) (w : World) (coll : String) : List Event :=
  Event.hasCollection coll ::
  match w.hasCollection coll with
  | Except.error e => [Event.print ("获取集合信息失败: " ++ e)]
  | Except.ok false => [Event.print ("集合 \x27" ++ coll ++ "\x27 不存在")]
  | Except.ok true =>
    Event.describeCollection coll ::
    match w.describe coll with
    | Except.error e => [Event.print ("获取集合信息失败: " ++ e)]
    | Except.ok description =>
      Event.print ("\n集合 \x27" ++ coll ++ "\x27 信息:") ::
      Event.print ("描述: " ++ pyStr w (dictGetD description ("description") (Value.vstr ("无")))) ::
      inspectQuery a w coll description

/-- The whole invocation: file check, connection, then dispatch to
search / list / inspect. -/
def main (a : Args) (w : World) : List Event :=
  if w.pathExists a.uri then
    Event.connect a.uri a.token a.db ::
    match w.connect a.uri a.token a.db with
    | Except.error e => [Event.print ("连接Milvus Lite数据库失败: " ++ e)]
    | Except.ok _ =>
      Event.print ("成功连接到Milvus Lite数据库: " ++ a.uri) ::
      if a.search then searchMode a w
      else if pyTruthyStr a.collection then showMode a w (getS a.collection)
      else listMode w
  else
    [Event.print ("错误: 数据库文件 \x27" ++ a.uri ++ "\x27 不存在")]

/-! ## Helper lemmas and concrete fixtures -/

theorem pyTruthyStr_some {s : String} (h : s ≠ "") :
    pyTruthyStr (some s) = true := by
  cases hh : s.isEmpty with
  | false => simp [pyTruthyStr, hh]
  | true => exact absurd ((String.isEmpty_iff s).mp hh) h

/-- Default argument values, as declared by the argparse configuration. -/
def argsBase : Args :=
  { uri := "./milvus.db", token := "root:Milvus", db := "default",
    collection := none, limit := 10, offset := 0, show_vectors := false,
    vector_preview := 5, search := false, search_text := none,
    search_vector := none, search_id := none, top_k := 5 }

/-- A benign client world used to instantiate universally quantified
theorems at concrete inputs. -/
def wBase : World :=
  { pathExists := fun _ => true,
    connect := fun _ _ _ => Except.ok (),
    hasCollection := fun _ => Except.ok true,
    listCollections := Except.ok [],
    describe := fun _ => Except.ok [],
    hasStatsAttr := false,
    stats := fun _ => Except.error ("unsupported"),
    query := fun _ _ _ _ _ => Except.ok [],
    search := fun _ _ _ _ _ _ => Except.ok [],
    jsonLoads := fun _ => Except.error (),
    reprV := fun _ => "",
    scoreStr := fun _ => "",
    normStr := fun _ => "",
    errName := fun _ => "" }

/-! ## C5: missing database file -/

/-- C5: for every invocation whose database file path does not exist, the
tool terminates before any connection attempt (no client event at all)
and emits exactly one file-does-not-exist message. -/
theorem C5_missing_file (a : Args) (w : World)
    (h : w.pathExists a.uri = false) :
    main a w = [Event.print ("错误: 数据库文件 \x27" ++ a.uri ++ "\x27 不存在")] := by
  simp [main, h]

/-- Witness for C5 at the default arguments and a world without the file. -/
theorem C5_missing_file_witness :
    main argsBase { wBase with pathExists := fun _ => false } =
      [Event.print ("错误: 数据库文件 \x27./milvus.db\x27 不存在")] :=
  C5_missing_file argsBase { wBase with pathExists := fun _ => false } rfl

/-! ## C4: text truncation rule -/

/-- C4: in both the paged-read and the search-hit rendering, a text of at
most 100 characters is printed unchanged, and a longer text is rendered as
its first 97 characters followed by the 3-character `...` marker, 100
characters in all. -/
theorem C4_text_truncation (s : String) (a : Args) (w : World)
    (fns : List Value) (i : Nat) (item hit : Dict) :
    (s.length ≤ 100 → truncText s = s) ∧
    (100 < s.length →
      truncText s = s.take 97 ++ "..." ∧ (truncText s).length = 100) ∧
    (dictGet item ("text") = some (Value.vstr s) →
      Event.print ("文本: " ++ truncText s) ∈ renderItem a w fns i item) ∧
    (dictGet hit ("text") = some (Value.vstr s) →
      Event.print ("文本: " ++ truncText s) ∈ renderHit w i hit) := by
  refine ⟨fun h => ?_, fun h => ⟨?_, ?_⟩, fun h => ?_, fun h => ?_⟩
  · simp only [truncText, if_neg (by omega : ¬ s.length > 100)]
  · simp only [truncText, if_pos (by omega : s.length > 100)]
  · simp only [truncText, if_pos (by omega : s.length > 100)]
    have h97 : (s.take 97).length = 97 := by
      rw [String.take_eq]
      show (s.data.take 97).length = 97
      rw [List.length_take]
      have hl : s.data.length = s.length := rfl
      omega
    rw [String.length_append, h97]
    rfl
  · simp only [renderItem, h, truncRender, List.mem_cons, List.mem_append,
      List.mem_singleton]
    tauto
  · simp only [renderHit, h, truncRender, List.mem_cons, List.mem_append,
      List.mem_singleton]
    tauto

/-- A 100-character text (not shortened). -/
def s100 : String := String.mk (List.replicate 100 ('a'))

/-- A 101-character text (shortened to 97 + `...`). -/
def s101 : String := String.mk (List.replicate 101 ('a'))

/-- A record and a hit carrying the long text. -/
def itemLong : Dict := [(("text"), Value.vstr s101)]

/-- Witness for C4 at a 100-character and a 101-character text. -/
theorem C4_text_truncation_witness :
    truncText s100 = s100 ∧
    (truncText s101 = s101.take 97 ++ "..." ∧ (truncText s101).length = 100) ∧
    Event.print ("文本: " ++ truncText s101) ∈
      renderItem argsBase wBase [] 0 itemLong ∧
    Event.print ("文本: " ++ truncText s101) ∈ renderHit wBase 0 itemLong :=
  ⟨(C4_text_truncation s100 argsBase wBase [] 0 itemLong itemLong).1 (by decide),
   (C4_text_truncation s101 argsBase wBase [] 0 itemLong itemLong).2.1 (by decide),
   (C4_text_truncation s101 argsBase wBase [] 0 itemLong itemLong).2.2.1 rfl,
   (C4_text_truncation s101 argsBase wBase [] 0 itemLong itemLong).2.2.2 rfl⟩

/-! ## C9: record numbering in the paged read -/

theorem renderItems_header_mem (a : Args) (w : World) (fns : List Value) :
    ∀ (results : List Dict) (start i : Nat), i < results.length →
      Event.print ("\n--- 数据 #" ++ toString (a.offset + ((start + i : Nat) : Int) + 1)
          ++ " ---") ∈ renderItems a w fns start results := by
  intro results
  induction results with
  | nil => intro start i hi; simp at hi
  | cons item rest ih =>
    intro start i hi
    cases i with
    | zero =>
      simp only [renderItems, Nat.add_zero]
      exact List.mem_append_left _ (List.mem_cons_self _ _)
    | succ j =>
      have := ih (start + 1) j (by simpa using hi)
      simp only [renderItems]
      refine List.mem_append_right _ ?_
      have harith : start + 1 + j = start + (j + 1) := by omega
      rwa [harith] at this

/-- C9: in the paged-read report, the i-th record block (0-based) carries
header number `offset + i + 1`, and the summary line reports the range
`offset + 1` through `offset + n` for a page of n records. -/
theorem C9_record_numbering (a : Args) (w : World) (fns : List Value)
    (results : List Dict) (i : Nat) (hi : i < results.length) :
    Event.print ("\n--- 数据 #" ++ toString (a.offset + (i : Int) + 1) ++ " ---")
      ∈ pagedReport a w fns results ∧
    (pagedReport a w fns results).head? =
      some (Event.print ("\n数据 (显示 " ++ toString (a.offset + 1) ++ " - "
          ++ toString (a.offset + (results.length : Int)) ++ " 条):")) := by
  constructor
  · have := renderItems_header_mem a w fns results 0 i hi
    simp only [Nat.zero_add] at this
    exact List.mem_cons_of_mem _ this
  · rfl

/-- Witness for C9 at a two-record page with offset 0. -/
theorem C9_record_numbering_witness :
    Event.print ("\n--- 数据 #" ++ toString ((0 : Int) + (1 : Nat) + 1) ++ " ---")
      ∈ pagedReport argsBase wBase [] [[], []] ∧
    (pagedReport argsBase wBase [] [[], []]).head? =
      some (Event.print ("\n数据 (显示 " ++ toString ((0 : Int) + 1) ++ " - "
          ++ toString ((0 : Int) + ((2 : Nat) : Int)) ++ " 条):")) :=
  C9_record_numbering argsBase wBase [] [[], []] 1 (by decide)

/-! ## The search route through `main` -/

theorem main_search_route (a : Args) (w : World) (s : String)
    (hpath : w.pathExists a.uri = true)
    (hconn : w.connect a.uri a.token a.db = Except.ok ())
    (hsearch : a.search = true)
    (hcoll : a.collection = some s) (hs : s ≠ "")
    (hhas : w.hasCollection s = Except.ok true) :
    main a w =
      Event.connect a.uri a.token a.db ::
      Event.print ("成功连接到Milvus Lite数据库: " ++ a.uri) ::
      Event.hasCollection s ::
      resolveAndSearch a w s := by
  simp [main, hpath, hconn, hsearch, searchMode, hcoll, pyTruthyStr_some hs,
    getS, hhas]

/-! ## C1: search invocation with no id, vector, or text -/

/-- Search-mode arguments with a collection but no id, vector, or text. -/
def argsC1 : Args := { argsBase with search := true, collection := some ("docs") }

/-- C1 is false as stated: on a search invocation lacking id, vector and
text, the missing-argument error is printed, but only after the client has
already been called — the connection is opened and `has_collection` is
invoked before the error is reported. -/
theorem C1_counterexample :
    main argsC1 wBase =
      [Event.connect ("./milvus.db") ("root:Milvus") ("default"),
       Event.print ("成功连接到Milvus Lite数据库: ./milvus.db"),
       Event.hasCollection ("docs"),
       Event.print ("错误: 必须提供搜索向量 (--search_vector) 或 搜索ID (--search_id) 或 搜索文本 (--search_text)")] ∧
    Event.hasCollection ("docs") ∈ main argsC1 wBase ∧
    isClientCall (Event.hasCollection ("docs")) = true := by
  have h : main argsC1 wBase =
      [Event.connect ("./milvus.db") ("root:Milvus") ("default"),
       Event.print ("成功连接到Milvus Lite数据库: ./milvus.db"),
       Event.hasCollection ("docs"),
       Event.print ("错误: 必须提供搜索向量 (--search_vector) 或 搜索ID (--search_id) 或 搜索文本 (--search_text)")] := rfl
  exact ⟨h, h ▸ (by simp), rfl⟩

/-- C1 (amended): on a search invocation that names a collection but
supplies none of id, vector and text, the tool prints the
missing-argument error and stops; before reporting it has already opened
the connection and issued exactly one `has_collection` check, and no
query or search call is ever issued. -/
theorem C1_missing_search_args (a : Args) (w : World) (s : String)
    (hpath : w.pathExists a.uri = true)
    (hconn : w.connect a.uri a.token a.db = Except.ok ())
    (hsearch : a.search = true)
    (hcoll : a.collection = some s) (hs : s ≠ "")
    (hhas : w.hasCollection s = Except.ok true)
    (hid : a.search_id = none)
    (hv : pyTruthyStr a.search_vector = false)
    (ht : pyTruthyStr a.search_text = false) :
    main a w =
      [Event.connect a.uri a.token a.db,
       Event.print ("成功连接到Milvus Lite数据库: " ++ a.uri),
       Event.hasCollection s,
       Event.print ("错误: 必须提供搜索向量 (--search_vector) 或 搜索ID (--search_id) 或 搜索文本 (--search_text)")] := by
  rw [main_search_route a w s hpath hconn hsearch hcoll hs hhas]
  simp [resolveAndSearch, hid, hv, ht]

/-- Witness for the amended C1 at concrete arguments. -/
theorem C1_missing_search_args_witness :
    main argsC1 wBase =
      [Event.connect ("./milvus.db") ("root:Milvus") ("default"),
       Event.print ("成功连接到Milvus Lite数据库: ./milvus.db"),
       Event.hasCollection ("docs"),
       Event.print ("错误: 必须提供搜索向量 (--search_vector) 或 搜索ID (--search_id) 或 搜索文本 (--search_text)")] :=
  C1_missing_search_args argsC1 wBase ("docs") rfl rfl rfl rfl (by decide)
    rfl rfl rfl rfl

/-! ## C3: query-vector resolution priority -/

/-- C3: the query-vector resolution order is id, then explicit vector,
then text.  When `search_id` is supplied the very next client event is the
id-lookup query, whatever the other options hold; when only a vector (and
possibly text) is supplied the vector branch runs; a text-only search
prints the not-implemented message plus the hint and terminates without
issuing any search. -/
theorem C3_resolution_priority (a : Args) (w : World) (s : String)
    (sid : Int) (sv : String) (xs : List Value)
    (hpath : w.pathExists a.uri = true)
    (hconn : w.connect a.uri a.token a.db = Except.ok ())
    (hsearch : a.search = true)
    (hcoll : a.collection = some s) (hs : s ≠ "")
    (hhas : w.hasCollection s = Except.ok true) :
    (a.search_id = some sid →
      (main a w).get? 3 =
        some (Event.queryCall s ("id == " ++ toString sid)
          [Value.vstr ("embedding")] 1 none)) ∧
    (a.search_id = none → a.search_vector = some sv → sv ≠ "" →
      (w.jsonLoads sv = Except.ok (Value.vlist xs) →
        (main a w).get? 3 =
          some (Event.print ("使用提供的向量进行搜索 (维度: "
              ++ toString xs.length ++ ")"))) ∧
      (∀ u : Unit, w.jsonLoads sv = Except.error u →
        main a w =
          [Event.connect a.uri a.token a.db,
           Event.print ("成功连接到Milvus Lite数据库: " ++ a.uri),
           Event.hasCollection s,
           Event.print ("错误: 搜索向量必须是有效的JSON数组")])) ∧
    (a.search_id = none → pyTruthyStr a.search_vector = false →
      pyTruthyStr a.search_text = true →
      main a w =
        [Event.connect a.uri a.token a.db,
         Event.print ("成功连接到Milvus Lite数据库: " ++ a.uri),
         Event.hasCollection s,
         Event.print ("错误: 文本搜索需要嵌入模型，此功能尚未实现"),
         Event.print ("提示: 请使用 --search_vector 或 --search_id 参数进行搜索")]) := by
  rw [main_search_route a w s hpath hconn hsearch hcoll hs hhas]
  refine ⟨fun hid => ?_, fun hid hsv hsv2 => ⟨fun hjson => ?_, fun u hjson => ?_⟩,
    fun hid hv ht => ?_⟩
  · simp [resolveAndSearch, hid, List.get?]
  · simp [resolveAndSearch, hid, hsv, pyTruthyStr_some hsv2, getS, hjson,
      List.get?]
  · simp [resolveAndSearch, hid, hsv, pyTruthyStr_some hsv2, getS, hjson]
  · simp [resolveAndSearch, hid, hv, ht]

/-- A world whose JSON parser accepts the three-element vector. -/
def wJson : World :=
  { wBase with jsonLoads := fun _ =>
      Except.ok (Value.vlist [Value.vstr ("x"), Value.vstr ("y"), Value.vstr ("z")]) }

/-- Arguments supplying both an id and a vector (id must win). -/
def argsC3id : Args :=
  { argsC1 with search_id := some 7, search_vector := some ("[1]") }

/-- Arguments supplying a vector and a text (vector must win). -/
def argsC3vec : Args :=
  { argsC1 with
    search_vector := some ("[0.1, 0.2, 0.3]")
    search_text := some ("hello") }

/-- Arguments supplying only a text. -/
def argsC3text : Args := { argsC1 with search_text := some ("hello") }

/-- Witness for C3: the three priority situations at concrete inputs. -/
theorem C3_resolution_priority_witness :
    ((main argsC3id wBase).get? 3 =
      some (Event.queryCall ("docs") ("id == 7")
        [Value.vstr ("embedding")] 1 none)) ∧
    ((main argsC3vec wJson).get? 3 =
      some (Event.print ("使用提供的向量进行搜索 (维度: 3)"))) ∧
    (main argsC3text wBase =
      [Event.connect ("./milvus.db") ("root:Milvus") ("default"),
       Event.print ("成功连接到Milvus Lite数据库: ./milvus.db"),
       Event.hasCollection ("docs"),
       Event.print ("错误: 文本搜索需要嵌入模型，此功能尚未实现"),
       Event.print ("提示: 请使用 --search_vector 或 --search_id 参数进行搜索")]) :=
  ⟨(C3_resolution_priority argsC3id wBase ("docs") 7 ("") [] rfl rfl rfl rfl
      (by decide) rfl).1 rfl,
   ((C3_resolution_priority argsC3vec wJson ("docs") 0 ("[0.1, 0.2, 0.3]")
      [Value.vstr ("x"), Value.vstr ("y"), Value.vstr ("z")] rfl rfl rfl rfl
      (by decide) rfl).2.1 rfl rfl (by decide)).1 rfl,
   (C3_resolution_priority argsC3text wBase ("docs") 0 ("") [] rfl rfl rfl rfl
      (by decide) rfl).2.2 rfl rfl rfl⟩

/-! ## C2: output fields of the vector-displaying read -/

/-- Inspection arguments requesting vector display. -/
def argsC2 : Args :=
  { argsBase with collection := some ("docs"), show_vectors := true }

/-- A schema with fields `id`, `embedding`, `text`. -/
def dC2 : Dict :=
  [(("description"), Value.vstr ("")),
   (("fields"), Value.vlist
     [Value.vdict [(("name"), Value.vstr ("id"))],
      Value.vdict [(("name"), Value.vstr ("embedding"))],
      Value.vdict [(("name"), Value.vstr ("text"))]])]

/-- A world serving the `dC2` schema. -/
def wC2 : World := { wBase with describe := fun _ => Except.ok dC2 }

/-- C2 is false as stated: with vector display requested on a schema
`{id, embedding, text}`, the read query does not request every field
except `id` — the id field is appended, so the requested fields are
`[embedding, text, id]`, which contain `id`. -/
theorem C2_counterexample :
    (main argsC2 wC2).filter isQueryCall =
      [Event.queryCall ("docs") ("")
        [Value.vstr ("embedding"), Value.vstr ("text"), Value.vstr ("id")]
        10 (some 0)] ∧
    Value.vstr ("id") ∈
      [Value.vstr ("embedding"), Value.vstr ("text"), Value.vstr ("id")] :=
  ⟨rfl, by simp⟩

/-- C2 (amended): with vector display requested, the read query requests
every schema field except the system id field, and then the id field
appended at the end — i.e. all schema fields, with id moved last. -/
theorem C2_output_fields (a : Args) (w : World) (s : String) (d : Dict)
    (nms : List String)
    (hpath : w.pathExists a.uri = true)
    (hconn : w.connect a.uri a.token a.db = Except.ok ())
    (hsearch : a.search = false)
    (hcoll : a.collection = some s) (hs : s ≠ "")
    (hhas : w.hasCollection s = Except.ok true)
    (hdesc : w.describe s = Except.ok d)
    (hshow : a.show_vectors = true)
    (hfields : dictGet d ("fields") =
      some (Value.vlist (nms.map (fun nm =>
        Value.vdict [(("name"), Value.vstr nm)])))) :
    Event.queryCall s ("")
        ((nms.filter (fun nm => !(nm == "id"))).map Value.vstr
          ++ [Value.vstr ("id")])
        a.limit (some a.offset) ∈ main a w := by
  have hnames : ∀ nm : String,
      vGet (Value.vdict [(("name"), Value.vstr nm)]) ("name") = Value.vstr nm := by
    intro nm; simp [vGet, asDict, dictGetD, dictGet]
  have hfieldNames :
      ((nms.map (fun nm => Value.vdict [(("name"), Value.vstr nm)])).filter
          (fun f => !Value.beq (vGet f ("name")) (Value.vstr ("id")))).map
        (fun f => vGet f ("name")) =
      (nms.filter (fun nm => !(nm == "id"))).map Value.vstr := by
    rw [List.filter_map, List.map_map]
    have hpred : ∀ nm : String,
        ((fun f => !Value.beq (vGet f ("name")) (Value.vstr ("id"))) ∘
          (fun nm => Value.vdict [(("name"), Value.vstr nm)])) nm =
        (fun nm : String => !(nm == "id")) nm := by
      intro nm; simp [Function.comp, hnames, Value.beq]
    rw [List.filter_congr (fun nm _ => hpred nm)]
    refine List.map_congr_left ?_
    intro nm _
    simp [Function.comp, hnames]
  have hnotmem :
      vMem (Value.vstr ("id"))
        ((nms.filter (fun nm => !(nm == "id"))).map Value.vstr) = false := by
    rw [Bool.eq_false_iff]
    intro hmem
    simp only [vMem] at hmem
    rcases List.any_eq_true.mp hmem with ⟨v, hv, hbeq⟩
    rcases List.mem_map.mp hv with ⟨nm, hnm, rfl⟩
    rcases List.mem_filter.mp hnm with ⟨_, hne⟩
    have h1 : ("id" == nm) = true := by simpa [Value.beq] using hbeq
    have h2 : ("id" : String) = nm := by simpa using h1
    simp [← h2] at hne
  have hmain : main a w =
      Event.connect a.uri a.token a.db ::
      Event.print ("成功连接到Milvus Lite数据库: " ++ a.uri) ::
      showMode a w s := by
    simp [main, hpath, hconn, hsearch, hcoll, pyTruthyStr_some hs, getS]
  rw [hmain]
  refine List.mem_cons_of_mem _ (List.mem_cons_of_mem _ ?_)
  have hshowMode : showMode a w s =
      Event.hasCollection s ::
      Event.describeCollection s ::
      Event.print ("\n集合 \x27" ++ s ++ "\x27 信息:") ::
      Event.print ("描述: "
        ++ pyStr w (dictGetD d ("description") (Value.vstr ("无")))) ::
      inspectQuery a w s d := by
    simp [showMode, hhas, hdesc]
  rw [hshowMode]
  refine List.mem_cons_of_mem _ (List.mem_cons_of_mem _
    (List.mem_cons_of_mem _ (List.mem_cons_of_mem _ ?_)))
  have hfieldsD :
      asList (dictGetD d ("fields") (Value.vlist [])) =
      nms.map (fun nm => Value.vdict [(("name"), Value.vstr nm)]) := by
    simp [dictGetD, hfields, asList]
  simp only [inspectQuery, hshow, if_true, hfieldsD, hfieldNames, hnotmem,
    Bool.false_eq_true, if_false]
  have hne : ((nms.filter (fun nm => !(nm == "id"))).map Value.vstr
      ++ [Value.vstr ("id")]).isEmpty = false := by
    simp [List.isEmpty_eq_false_iff_exists_mem]
  rw [hne]
  simp only [Bool.false_eq_true, if_false]
  exact List.mem_cons_self _ _

/-- Witness for the amended C2 at the `{id, embedding, text}` schema. -/
theorem C2_output_fields_witness :
    Event.queryCall ("docs") ("")
        ((["id", "embedding", "text"].filter (fun nm => !(nm == "id"))).map
          Value.vstr ++ [Value.vstr ("id")])
        10 (some 0) ∈ main argsC2 wC2 :=
  C2_output_fields argsC2 wC2 ("docs") dC2 ["id", "embedding", "text"]
    rfl rfl rfl rfl (by decide) rfl rfl rfl rfl

/-! ## C6: exactly one search call per resolved vector -/

theorem filter_isSearchCall_map_print {α : Type} (f : α → String)
    (l : List α) :
    (l.map (fun x => Event.print (f x))).filter isSearchCall = [] := by
  induction l with
  | nil => rfl
  | cons x xs ih => simp [List.filter_cons, isSearchCall, ih]

theorem renderHit_no_search (w : World) (i : Nat) (hit : Dict) :
    (renderHit w i hit).filter isSearchCall = [] := by
  rcases hx : dictGet hit ("text") with _ | v1 <;>
  rcases hr : dictGet hit ("reference") with _ | v2 <;>
  rcases hm : dictGet hit ("metadata") with _ | v3 <;>
  rcases hid : dictGet hit ("id") with _ | v4 <;>
  simp [renderHit, hx, hr, hm, hid, List.filter_append, List.filter_cons,
    isSearchCall, apply_ite (List.filter isSearchCall), metaLines,
    filter_isSearchCall_map_print]

theorem renderHits_no_search (w : World) :
    ∀ (i : Nat) (hits : List Dict),
      (renderHits w i hits).filter isSearchCall = [] := by
  intro i hits
  induction hits generalizing i with
  | nil => rfl
  | cons hit rest ih =>
    simp [renderHits, List.filter_append, renderHit_no_search, ih]

theorem doSearch_filter (a : Args) (w : World) (coll : String) (vec : Value) :
    (doSearch a w coll vec).filter isSearchCall =
      [Event.searchCall coll [vec] ("embedding") ("L2") a.top_k
        [Value.vstr ("text"), Value.vstr ("reference"), Value.vstr ("metadata")]] := by
  cases hres : w.search coll [vec] ("embedding") ("L2") a.top_k
      [Value.vstr ("text"), Value.vstr ("reference"), Value.vstr ("metadata")] with
  | error e =>
    simp [doSearch, hres, List.filter_cons, isSearchCall]
  | ok results =>
    cases results with
    | nil => simp [doSearch, hres, List.filter_cons, isSearchCall]
    | cons first rest =>
      cases hfe : first.isEmpty with
      | true =>
        simp [doSearch, hres, hfe, List.filter_cons, isSearchCall]
      | false =>
        simp [doSearch, hres, hfe, List.filter_cons, isSearchCall,
          renderHits_no_search]

/-- C6: once a query vector is resolved — whether from a record id or
from an explicit JSON vector — the whole invocation issues exactly one
search call, against the named collection's `embedding` field, with the
resolved vector, the fixed `L2` metric, limit `top_k`, and output fields
exactly `text`, `reference`, `metadata`. -/
theorem C6_single_search_call (a : Args) (w : World) (s : String)
    (hpath : w.pathExists a.uri = true)
    (hconn : w.connect a.uri a.token a.db = Except.ok ())
    (hsearch : a.search = true)
    (hcoll : a.collection = some s) (hs : s ≠ "")
    (hhas : w.hasCollection s = Except.ok true) :
    (∀ (sid : Int) (r : Dict) (rest : List Dict) (v : Value),
      a.search_id = some sid →
      w.query s ("id == " ++ toString sid) [Value.vstr ("embedding")] 1 none =
        Except.ok (r :: rest) →
      dictGet r ("embedding") = some v →
      (main a w).filter isSearchCall =
        [Event.searchCall s [v] ("embedding") ("L2") a.top_k
          [Value.vstr ("text"), Value.vstr ("reference"), Value.vstr ("metadata")]]) ∧
    (∀ (sv : String) (xs : List Value),
      a.search_id = none → a.search_vector = some sv → sv ≠ "" →
      w.jsonLoads sv = Except.ok (Value.vlist xs) →
      (main a w).filter isSearchCall =
        [Event.searchCall s [Value.vlist xs] ("embedding") ("L2") a.top_k
          [Value.vstr ("text"), Value.vstr ("reference"), Value.vstr ("metadata")]]) := by
  rw [main_search_route a w s hpath hconn hsearch hcoll hs hhas]
  constructor
  · intro sid r rest v hid hq hemb
    simp [resolveAndSearch, hid, hq, hemb, List.filter_cons, isSearchCall,
      doSearch_filter]
  · intro sv xs hid hsv hsv2 hjson
    simp [resolveAndSearch, hid, hsv, pyTruthyStr_some hsv2, getS, hjson,
      List.filter_cons, isSearchCall, doSearch_filter]

/-- A world holding a record with id 7 and a stored vector. -/
def wC6 : World :=
  { wBase with query := fun _ _ _ _ _ =>
      Except.ok [[(("id"), Value.vint 7),
                  (("embedding"), Value.vlist [Value.vint 1, Value.vint 2])]] }

/-- Witness for C6: the id route and the explicit-vector route each issue
exactly one search call with the resolved vector. -/
theorem C6_single_search_call_witness :
    (main argsC3id wC6).filter isSearchCall =
      [Event.searchCall ("docs") [Value.vlist [Value.vint 1, Value.vint 2]]
        ("embedding") ("L2") 5
        [Value.vstr ("text"), Value.vstr ("reference"), Value.vstr ("metadata")]] ∧
    (main argsC3vec wJson).filter isSearchCall =
      [Event.searchCall ("docs")
        [Value.vlist [Value.vstr ("x"), Value.vstr ("y"), Value.vstr ("z")]]
        ("embedding") ("L2") 5
        [Value.vstr ("text"), Value.vstr ("reference"), Value.vstr ("metadata")]] :=
  ⟨(C6_single_search_call argsC3id wC6 ("docs") rfl rfl rfl rfl (by decide)
      rfl).1 7
      [(("id"), Value.vint 7), (("embedding"), Value.vlist [Value.vint 1, Value.vint 2])]
      [] (Value.vlist [Value.vint 1, Value.vint 2]) rfl rfl rfl,
   (C6_single_search_call argsC3vec wJson ("docs") rfl rfl rfl rfl (by decide)
      rfl).2 ("[0.1, 0.2, 0.3]")
      [Value.vstr ("x"), Value.vstr ("y"), Value.vstr ("z")] rfl rfl (by decide) rfl⟩

/-! ## C7: search by record id -/

/-- C7: searching by record id performs the lookup with an equality
filter on id, output field `embedding` and limit 1; when no record comes
back, or the record lacks an `embedding` field, a clear error is printed
and the invocation ends with no similarity search issued; when the record
has a vector, that vector becomes the query vector of the search call. -/
theorem C7_search_by_id (a : Args) (w : World) (s : String) (sid : Int)
    (hpath : w.pathExists a.uri = true)
    (hconn : w.connect a.uri a.token a.db = Except.ok ())
    (hsearch : a.search = true)
    (hcoll : a.collection = some s) (hs : s ≠ "")
    (hhas : w.hasCollection s = Except.ok true)
    (hid : a.search_id = some sid) :
    ((main a w).get? 3 =
      some (Event.queryCall s ("id == " ++ toString sid)
        [Value.vstr ("embedding")] 1 none)) ∧
    (w.query s ("id == " ++ toString sid) [Value.vstr ("embedding")] 1 none =
        Except.ok [] →
      main a w =
        [Event.connect a.uri a.token a.db,
         Event.print ("成功连接到Milvus Lite数据库: " ++ a.uri),
         Event.hasCollection s,
         Event.queryCall s ("id == " ++ toString sid)
           [Value.vstr ("embedding")] 1 none,
         Event.print ("错误: 未找到ID为 " ++ toString sid ++ " 的数据或其没有向量")]) ∧
    (∀ (r : Dict) (rest : List Dict),
      w.query s ("id == " ++ toString sid) [Value.vstr ("embedding")] 1 none =
        Except.ok (r :: rest) →
      dictGet r ("embedding") = none →
      main a w =
        [Event.connect a.uri a.token a.db,
         Event.print ("成功连接到Milvus Lite数据库: " ++ a.uri),
         Event.hasCollection s,
         Event.queryCall s ("id == " ++ toString sid)
           [Value.vstr ("embedding")] 1 none,
         Event.print ("错误: 未找到ID为 " ++ toString sid ++ " 的数据或其没有向量")]) ∧
    (∀ (r : Dict) (rest : List Dict) (v : Value),
      w.query s ("id == " ++ toString sid) [Value.vstr ("embedding")] 1 none =
        Except.ok (r :: rest) →
      dictGet r ("embedding") = some v →
      (main a w).get? 4 =
        some (Event.print ("使用ID " ++ toString sid ++ " 的向量进行搜索")) ∧
      (main a w).get? 5 =
        some (Event.searchCall s [v] ("embedding") ("L2") a.top_k
          [Value.vstr ("text"), Value.vstr ("reference"), Value.vstr ("metadata")])) := by
  rw [main_search_route a w s hpath hconn hsearch hcoll hs hhas]
  refine ⟨?_, fun hq => ?_, fun r rest hq hemb => ?_, fun r rest v hq hemb => ⟨?_, ?_⟩⟩
  · simp [resolveAndSearch, hid, List.get?]
  · simp [resolveAndSearch, hid, hq]
  · simp [resolveAndSearch, hid, hq, hemb]
  · simp [resolveAndSearch, hid, hq, hemb, List.get?]
  · simp [resolveAndSearch, hid, hq, hemb, List.get?, doSearch]

/-- A world whose id lookup finds no record. -/
def wC7none : World := { wBase with query := fun _ _ _ _ _ => Except.ok [] }

/-- A world whose id lookup finds a record without a vector field. -/
def wC7novec : World :=
  { wBase with query := fun _ _ _ _ _ => Except.ok [[(("id"), Value.vint 7)]] }

/-- Search-mode arguments with only an id supplied. -/
def argsC7 : Args := { argsC1 with search_id := some 7 }

/-- Witness for C7: lookup shape, missing-record failure, missing-vector
failure, and vector extraction, at concrete inputs. -/
theorem C7_search_by_id_witness :
    ((main argsC7 wC7none).get? 3 =
      some (Event.queryCall ("docs") ("id == 7")
        [Value.vstr ("embedding")] 1 none)) ∧
    (main argsC7 wC7none =
      [Event.connect ("./milvus.db") ("root:Milvus") ("default"),
       Event.print ("成功连接到Milvus Lite数据库: ./milvus.db"),
       Event.hasCollection ("docs"),
       Event.queryCall ("docs") ("id == 7") [Value.vstr ("embedding")] 1 none,
       Event.print ("错误: 未找到ID为 7 的数据或其没有向量")]) ∧
    (main argsC7 wC7novec =
      [Event.connect ("./milvus.db") ("root:Milvus") ("default"),
       Event.print ("成功连接到Milvus Lite数据库: ./milvus.db"),
       Event.hasCollection ("docs"),
       Event.queryCall ("docs") ("id == 7") [Value.vstr ("embedding")] 1 none,
       Event.print ("错误: 未找到ID为 7 的数据或其没有向量")]) ∧
    ((main argsC7 wC6).get? 5 =
      some (Event.searchCall ("docs")
        [Value.vlist [Value.vint 1, Value.vint 2]] ("embedding") ("L2") 5
        [Value.vstr ("text"), Value.vstr ("reference"), Value.vstr ("metadata")])) :=
  ⟨(C7_search_by_id argsC7 wC7none ("docs") 7 rfl rfl rfl rfl (by decide)
      rfl rfl).1,
   (C7_search_by_id argsC7 wC7none ("docs") 7 rfl rfl rfl rfl (by decide)
      rfl rfl).2.1 rfl,
   (C7_search_by_id argsC7 wC7novec ("docs") 7 rfl rfl rfl rfl (by decide)
      rfl rfl).2.2.1 [(("id"), Value.vint 7)] [] rfl rfl,
   ((C7_search_by_id argsC7 wC6 ("docs") 7 rfl rfl rfl rfl (by decide)
      rfl rfl).2.2.2
      [(("id"), Value.vint 7), (("embedding"), Value.vlist [Value.vint 1, Value.vint 2])]
      [] (Value.vlist [Value.vint 1, Value.vint 2]) rfl rfl).2⟩

/-! ## C8 and C10: per-collection degradation during listing -/

theorem collectionRow_head (w : World) (c : String) :
    (collectionRow w c).head? = some (Value.vstr c) := by
  cases hd : w.describe c <;> simp [collectionRow, hd]

theorem printTable_mem_listMode (w : World) (cs : List String)
    (hlist : w.listCollections = Except.ok cs) (hne : cs ≠ []) :
    Event.printTable [("集合名称"), ("描述"), ("数据量")] (listRows w cs)
      ∈ listMode w := by
  cases cs with
  | nil => exact absurd rfl hne
  | cons c0 cs' =>
    simp only [listMode, hlist]
    refine List.mem_cons_of_mem _ (List.mem_cons_of_mem _ ?_)
    exact List.mem_append_right _ (List.mem_singleton.mpr rfl)

/-- C8: a row-count retrieval failure for one collection during listing
is swallowed: that collection's row still appears with the `未知`
(unknown) sentinel as its count, the table is still printed, and every
collection of the listing keeps exactly its own row. -/
theorem C8_rowcount_failure (w : World) (cs : List String) (c : String)
    (d : Dict) (e : String)
    (hlist : w.listCollections = Except.ok cs)
    (hc : c ∈ cs)
    (hdesc : w.describe c = Except.ok d)
    (hattr : w.hasStatsAttr = true)
    (hstats : w.stats c = Except.error e) :
    Event.printTable [("集合名称"), ("描述"), ("数据量")] (listRows w cs)
      ∈ listMode w ∧
    [Value.vstr c, dictGetD d ("description") (Value.vstr ("")),
      Value.vstr ("未知")] ∈ listRows w cs ∧
    ∀ c' ∈ cs, collectionRow w c' ∈ listRows w cs ∧
      (collectionRow w c').head? = some (Value.vstr c') := by
  refine ⟨printTable_mem_listMode w cs hlist (List.ne_nil_of_mem hc), ?_, ?_⟩
  · have hrow : collectionRow w c =
        [Value.vstr c, dictGetD d ("description") (Value.vstr ("")),
          Value.vstr ("未知")] := by
      simp [collectionRow, hdesc, countOf, hattr, hstats]
    exact hrow ▸ List.mem_map_of_mem (collectionRow w) hc
  · intro c' hc'
    exact ⟨List.mem_map_of_mem (collectionRow w) hc', collectionRow_head w c'⟩

/-- A world listing two collections whose row-count query always fails. -/
def wC8 : World :=
  { wBase with
    listCollections := Except.ok ["a", "b"]
    describe := fun _ => Except.ok [(("description"), Value.vstr ("demo"))]
    hasStatsAttr := true
    stats := fun _ => Except.error ("boom") }

/-- Witness for C8 with two collections, both counts failing. -/
theorem C8_rowcount_failure_witness :
    Event.printTable [("集合名称"), ("描述"), ("数据量")]
        (listRows wC8 ["a", "b"]) ∈ listMode wC8 ∧
    [Value.vstr ("a"),
      dictGetD [(("description"), Value.vstr ("demo"))] ("description")
        (Value.vstr ("")),
      Value.vstr ("未知")] ∈ listRows wC8 ["a", "b"] ∧
    (collectionRow wC8 ("b") ∈ listRows wC8 ["a", "b"] ∧
      (collectionRow wC8 ("b")).head? = some (Value.vstr ("b"))) :=
  ⟨(C8_rowcount_failure wC8 ["a", "b"] ("a")
      [(("description"), Value.vstr ("demo"))] ("boom")
      rfl (by simp) rfl rfl rfl).1,
   (C8_rowcount_failure wC8 ["a", "b"] ("a")
      [(("description"), Value.vstr ("demo"))] ("boom")
      rfl (by simp) rfl rfl rfl).2.1,
   (C8_rowcount_failure wC8 ["a", "b"] ("a")
      [(("description"), Value.vstr ("demo"))] ("boom")
      rfl (by simp) rfl rfl rfl).2.2 ("b") (by simp)⟩

/-- C10: a describe failure for one collection during listing still
yields a row for that collection, holding the error text in the
description column and the `未知` sentinel as its count, while every
collection of the listing keeps exactly its own row in the printed
table. -/
theorem C10_describe_failure (w : World) (cs : List String) (c : String)
    (e : String)
    (hlist : w.listCollections = Except.ok cs)
    (hc : c ∈ cs)
    (hdesc : w.describe c = Except.error e) :
    Event.printTable [("集合名称"), ("描述"), ("数据量")] (listRows w cs)
      ∈ listMode w ∧
    [Value.vstr c, Value.vstr ("获取信息失败: " ++ e), Value.vstr ("未知")]
      ∈ listRows w cs ∧
    ∀ c' ∈ cs, collectionRow w c' ∈ listRows w cs ∧
      (collectionRow w c').head? = some (Value.vstr c') := by
  refine ⟨printTable_mem_listMode w cs hlist (List.ne_nil_of_mem hc), ?_, ?_⟩
  · have hrow : collectionRow w c =
        [Value.vstr c, Value.vstr ("获取信息失败: " ++ e), Value.vstr ("未知")] := by
      simp [collectionRow, hdesc]
    exact hrow ▸ List.mem_map_of_mem (collectionRow w) hc
  · intro c' hc'
    exact ⟨List.mem_map_of_mem (collectionRow w) hc', collectionRow_head w c'⟩

/-- A world listing two collections where describing `a` fails. -/
def wC10 : World :=
  { wBase with
    listCollections := Except.ok ["a", "b"]
    describe := fun c =>
      if c == "a" then Except.error ("boom")
      else Except.ok [(("description"), Value.vstr ("demo"))] }

/-- Witness for C10 with the describe failure on collection `a`. -/
theorem C10_describe_failure_witness :
    Event.printTable [("集合名称"), ("描述"), ("数据量")]
        (listRows wC10 ["a", "b"]) ∈ listMode wC10 ∧
    [Value.vstr ("a"), Value.vstr ("获取信息失败: boom"), Value.vstr ("未知")]
      ∈ listRows wC10 ["a", "b"] ∧
    (collectionRow wC10 ("b") ∈ listRows wC10 ["a", "b"] ∧
      (collectionRow wC10 ("b")).head? = some (Value.vstr ("b"))) :=
  ⟨(C10_describe_failure wC10 ["a", "b"] ("a") ("boom")
      rfl (by simp) rfl).1,
   (C10_describe_failure wC10 ["a", "b"] ("a") ("boom")
      rfl (by simp) rfl).2.1,
   (C10_describe_failure wC10 ["a", "b"] ("a") ("boom")
      rfl (by simp) rfl).2.2 ("b") (by simp)⟩

end MilvusExplorer
